import Mathlib

/-!
Verification development for the Crypton RSS ingestion and vector-sync
pipeline.  The Python sources are shallowly embedded as Lean definitions:
pure control flow is translated directly, stateful database operations
become explicit state passing over lists of rows, and external effects
(HTTP fetches, the embedding provider, the vector store, hashing) are
modelled as explicit parameters describing their outcome.
-/

namespace Crypton

/-! ## Python string primitives -/

/-- Model of the Python method str.lower applied character-wise. -/
def pylower (s : String) : String :=
  String.mk (s.data.map Char.toLower)

/-- Model of the Python method str.strip with no argument: remove leading and
trailing whitespace. -/
def pystrip (s : String) : String :=
  String.mk (((s.data.dropWhile Char.isWhitespace).reverse.dropWhile
    Char.isWhitespace).reverse)

/-- Helper of pysplit carrying the current word reversed. -/
def pysplit_aux : List Char → List Char → List String
  | [], acc => if acc.isEmpty then [] else [String.mk acc.reverse]
  | c :: cs, acc =>
    if c.isWhitespace then
      if acc.isEmpty then pysplit_aux cs []
      else String.mk acc.reverse :: pysplit_aux cs []
    else
      pysplit_aux cs (c :: acc)

/-- Model of the Python method str.split with no separator: split on
whitespace runs and drop empty pieces. -/
def pysplit (s : String) : List String :=
  pysplit_aux s.data []

/-- Python slice s[:n]: the first n characters (code points) of s. -/
def pyslice (s : String) (n : Nat) : String :=
  String.mk (s.data.take n)

/-- Helper of netlocOf: drop everything up to and including the first
scheme separator; without one, nothing remains (urlparse yields an empty
netloc for scheme-less strings). -/
def drop_scheme : List Char → List Char
  | [] => []
  | ':' :: '/' :: '/' :: rest => rest
  | _ :: rest => drop_scheme rest

/-- Model of urlparse(link).netloc as used to derive the domain of an
article: the host part between the scheme separator and the next slash
(urllib's full grammar is external; this covers the absolute http(s) URLs
the pipeline stores). -/
def netlocOf (url : String) : String :=
  String.mk ((drop_scheme url.data).takeWhile (fun c => c ≠ '/'))

/-! ## Extraction fallback chain (src/extractor.py) -/

/-- Raw outcome of the underlying fetch attempt of one extraction strategy,
before the minimum-length acceptance check: either the attempt raised an
exception, or it produced a text (possibly empty).  The HTTP and parsing
work is external, so it is modelled as data. -/
inductive StratRaw where
  | raised
  | fetchedText (s : String)
deriving DecidableEq, Repr

/-- Acceptance wrapper shared by extract_with_newspaper,
extract_with_trafilatura, extract_with_readability, extract_with_playwright
and extract_with_jina in src/extractor.py: every strategy returns its text
only when the stripped text has length strictly greater than 100 characters,
and returns None both when the attempt raised and when the text is too short
(all exceptions are caught inside the strategy). -/
def run_strategy : StratRaw → Option String
  | .raised => none
  | .fetchedText s => if (pystrip s).length > 100 then some s else none

/-- The fixed priority order of the methods dict in get_article_content
(src/extractor.py lines 170-176): newspaper3k, trafilatura, readability,
playwright, jina (Python dict preserves insertion order). -/
def extraction_methods : List String :=
  ["newspaper3k", "trafilatura", "readability", "playwright", "jina"]

/-- The for-loop of get_article_content over the methods dict: try each
strategy in order, return the first truthy result.  Returns the result
together with the list of strategies actually invoked (in order), which
the source realizes as the sequence of method calls. -/
def run_chain (beh : String → StratRaw) : List String → Option String × List String
  | [] => (none, [])
  | m :: ms =>
    match run_strategy (beh m) with
    | some s => (some s, [m])
    | none =>
      let r := run_chain beh ms
      (r.1, m :: r.2)

/-- Model of get_article_content (src/extractor.py lines 164-200).  The
behaviour of the external fetches is supplied by beh, mapping a method name
to its raw outcome.  With a specific method, only that strategy is invoked
(or none, if the name is unknown); with method "all" the chain runs in the
fixed priority order.  The result is an Option (absence value), never an
exception: every strategy catches its own exceptions. -/
def get_article_content (beh : String → StratRaw) (method : String) :
    Option String × List String :=
  if pylower method ≠ "all" then
    if extraction_methods.contains (pylower method) then
      (run_strategy (beh (pylower method)), [pylower method])
    else
      (none, [])
  else
    run_chain beh extraction_methods

/-! ## Feed change detection (src/sites_rss.py, src/gnews_rss.py) -/

/-- Lookup in the persisted url-to-hash map, modelling hashes.get(url) on the
dict loaded by load_hashes. -/
def lookup_hash : List (String × String) → String → Option String
  | [], _ => none
  | (k, v) :: rest, url => if k == url then some v else lookup_hash rest url

/-- Assignment hashes[url] = h on the url-to-hash map. -/
def set_hash : List (String × String) → String → String → List (String × String)
  | [], url, h => [(url, h)]
  | (k, v) :: rest, url, h =>
    if k == url then (url, h) :: rest else (k, v) :: set_hash rest url h

/-- Result of one process_rss_feed call: the returned boolean, the (possibly
mutated) in-memory hash map, and the feed content written to the output
file, when any. -/
structure FeedResult where
  changed : Bool
  hashes : List (String × String)
  saved : Option String
deriving DecidableEq, Repr

/-- Model of process_rss_feed (src/sites_rss.py lines 173-210; the
gnews_rss.py version at lines 104-140 has identical control flow).  External
effects are parameters: hashF is the SHA-256 hex digest of calculate_hash,
parseF the canonicalization step (extract_rss_content resp.
parse_and_format_rss), fetched the outcome of fetch_rss, and saveOk whether
writing the output file succeeds.  On fetch or parse failure the function
returns False with the hash map untouched; when the stored hash equals the
new hash it returns False; otherwise (including the first-time case with no
stored hash) it saves the document, stores the new hash and returns True —
unless the save fails, in which case it returns False without storing the
hash. -/
def process_rss_feed (hashF : String → String) (parseF : String → Option String)
    (saveOk : Bool) (url : String) (hashes : List (String × String))
    (fetched : Option String) : FeedResult :=
  match fetched with
  | none => ⟨false, hashes, none⟩
  | some content =>
    match parseF content with
    | none => ⟨false, hashes, none⟩
    | some rss =>
      let h := hashF rss
      if lookup_hash hashes url == some h then ⟨false, hashes, none⟩
      else if saveOk then ⟨true, set_hash hashes url h, some rss⟩
      else ⟨false, hashes, none⟩

/-! ## Article ingestion and dedup store
(src/article_processer.py, src/db_func.py, src/django_config.py) -/

/-- A row of the rss_feed_articles table (RSSFeedArticleModel.get_model,
src/django_config.py lines 100-108): url and uuid each carry a unique
constraint. -/
structure RssRow where
  url : String
  uuid : String
  source_url : String
  domain : String
deriving DecidableEq, Repr, Inhabited

/-- A row of the article_metadata table (ArticleMetadataModel.get_model). -/
structure MetaRow where
  uuid : String
  url : String
  title : String
  pub_date : Option String
  description : String
  content : String
  creator : String
  category : String
  word_count : Nat
  language : String
deriving DecidableEq, Repr, Inhabited

/-- A row of the failed_articles table (FailedArticlesModel.get_model): the
FailedArticleRecord ledger, keyed by uuid with an attempt counter. -/
structure FailedArticleRow where
  uuid : String
  url : String
  error_type : String
  error_message : String
  attempt_count : Nat
deriving DecidableEq, Repr, Inhabited

/-- The relational store: the three tables owned by the ingestion side. -/
structure DBState where
  rss : List RssRow
  metadata : List MetaRow
  failed : List FailedArticleRow
deriving DecidableEq, Repr, Inhabited

/-- Model of log_failed_article (src/db_func.py lines 26-50): update the
first existing row with the same uuid (incrementing attempt_count and
refreshing the error fields and url), or create a new row with
attempt_count 1. -/
def log_failed_article (ledger : List FailedArticleRow)
    (article_uuid article_url error_type error_message : String) :
    List FailedArticleRow :=
  match ledger with
  | [] => [⟨article_uuid, article_url, error_type, error_message, 1⟩]
  | r :: rs =>
    if r.uuid == article_uuid then
      { r with
        url := article_url
        error_type := error_type
        error_message := error_message
        attempt_count := r.attempt_count + 1 } :: rs
    else
      r :: log_failed_article rs article_uuid article_url error_type error_message

/-- Number of parameters of log_failed_article in src/db_func.py line 26
(config, article_uuid, article_url, error_type, error_message), none of
which has a default value. -/
def log_failed_article_param_count : Nat := 5

/-- Number of positional arguments supplied to log_failed_article by the
metadata-failure handler of write_article_to_db
(src/article_processer.py line 175: config, article_uuid, the exception
class name, the exception text). -/
def metadata_failure_log_arg_count : Nat := 4

/-- The in-memory article dict as it reaches write_article_to_db; uuidOpt is
the optional _uuid key. -/
structure ArticleInput where
  link : String
  title : String
  pub_date : Option String
  description : String
  content : String
  creator : String
  given_category : String
  word_count : Nat
  source_url : String
  uuidOpt : Option String
deriving DecidableEq, Repr, Inhabited

/-- The three return points of write_article_to_db: the successful insert at
line 179 (returns True), the IntegrityError branch at line 159 (duplicate:
returns False after a skip log, touching no table), and the outer exception
handler at line 183 (returns False). -/
inductive WriteOutcome where
  | inserted
  | duplicate
  | failedWrite
deriving DecidableEq, Repr

/-- The boolean write_article_to_db actually returns: True only on the
inserted path. -/
def WriteOutcome.toBool : WriteOutcome → Bool
  | .inserted => true
  | _ => false

/-- Model of write_article_to_db (src/article_processer.py lines 133-183).
External effects are parameters: freshUuid is the uuid4 value used when the
article carries no _uuid, detectedLang the langdetect result, and
metadataInsertOk whether the metadata insert succeeds.  The rss insert
raises IntegrityError when an existing row shares the url or the uuid (both
unique); the handler returns the duplicate outcome with every table
untouched.  When the metadata insert fails, the handler calls
log_failed_article with four positional arguments while the function
requires five, so Python raises TypeError before any ledger write; the outer
handler catches it and returns False.  The guard below keeps the intended
ledger write visible: it is unreachable because the argument counts differ.
The transaction.atomic block means a failed metadata insert leaves the
metadata table unchanged, while the already-committed rss row remains. -/
def write_article_to_db (st : DBState) (a : ArticleInput) (freshUuid : String)
    (detectedLang : String) (metadataInsertOk : Bool) : WriteOutcome × DBState :=
  let domain := netlocOf a.link
  let article_uuid := a.uuidOpt.getD freshUuid
  if st.rss.any (fun r => r.url == a.link || r.uuid == article_uuid) then
    (.duplicate, st)
  else
    let st1 : DBState :=
      { st with rss := st.rss ++ [⟨a.link, article_uuid, a.source_url, domain⟩] }
    if metadataInsertOk then
      (.inserted, { st1 with metadata := st1.metadata ++
        [⟨article_uuid, a.link, a.title, a.pub_date, a.description, a.content,
          a.creator, a.given_category, a.word_count, detectedLang⟩] })
    else
      if metadata_failure_log_arg_count = log_failed_article_param_count then
        (.failedWrite, { st1 with
          failed :=
            log_failed_article st1.failed article_uuid a.link
              "MetadataInsertError" "metadata insert failed" })
      else
        (.failedWrite, st1)

/-- Outcome of the gnews URL resolution step get_redirected_url
(src/resolve_url.py): a resolved URL, a None return, or an exception. -/
inductive ResolveOutcome where
  | resolved (u : String)
  | noResolve
  | raisedResolve (msg : String)
deriving DecidableEq, Repr

/-- Outcome of the get_article_content call inside process_single_article:
the returned Option, or an exception escaping the call. -/
inductive ExtractOutcome where
  | completed (r : Option String)
  | raisedFetch (msg : String)
deriving DecidableEq, Repr

/-- The status string returned by process_single_article. -/
inductive ProcStatus where
  | processed
  | skipped
  | failed
deriving DecidableEq, Repr

/-- Result of process_single_article: the success flag, the status string,
the resulting store and the in-memory set of existing urls. -/
structure ProcResult where
  success : Bool
  status : ProcStatus
  st : DBState
  existing_urls : List String
deriving DecidableEq, Repr

/-- A feed item as consumed by process_single_article.  The description and
inline_content fields carry the html_to_markdown-converted text and category
the extract_categories result: that markup-to-text conversion is pure string
processing whose details none of the claims depend on. -/
structure ItemInput where
  title : String
  link : String
  pub_date : Option String
  creator : String
  description : String
  category : String
  inline_content : Option String
deriving DecidableEq, Repr, Inhabited

/-- Completion of process_single_article once content is in hand
(src/article_processer.py lines 276-284): compute word_count, attach the
fixed uuid, write to the store, and on success add the link to the
in-memory set of existing urls. -/
def finish_article (st : DBState) (existing : List String) (item : ItemInput)
    (source_url article_uuid detectedLang : String) (metadataInsertOk : Bool)
    (content lnk : String) : ProcResult :=
  let word_count := (pysplit content).length
  let a : ArticleInput :=
    ⟨lnk, item.title, item.pub_date, item.description, content, item.creator,
      item.category, word_count, source_url, some article_uuid⟩
  let r := write_article_to_db st a article_uuid detectedLang metadataInsertOk
  ⟨r.1.toBool, if r.1.toBool then .processed else .failed, r.2,
    if r.1.toBool then existing ++ [lnk] else existing⟩

/-- The content-fetch phase of process_single_article
(src/article_processer.py lines 255-275): a truthy extraction result
completes the article with content_source web_fetched; a falsy result or an
exception is logged to the failed-articles ledger and the item returns
failed with no store write (the in-memory dict is marked with empty content
and content_source web_failed resp. web_error, then abandoned). -/
def fetch_phase (st : DBState) (existing : List String) (item : ItemInput)
    (source_url article_uuid detectedLang : String) (metadataInsertOk : Bool)
    (extraction : ExtractOutcome) (fetch_url lnk : String) : ProcResult :=
  match extraction with
  | .completed (some c) =>
    if c == "" then
      ⟨false, .failed,
        { st with
          failed :=
            log_failed_article st.failed article_uuid lnk
              "content_extraction_failed"
              ("Failed to fetch content from: " ++ fetch_url) }, existing⟩
    else
      finish_article st existing item source_url article_uuid detectedLang
        metadataInsertOk c lnk
  | .completed none =>
    ⟨false, .failed,
      { st with
        failed :=
          log_failed_article st.failed article_uuid lnk
            "content_extraction_failed"
            ("Failed to fetch content from: " ++ fetch_url) }, existing⟩
  | .raisedFetch m =>
    ⟨false, .failed,
      { st with
        failed :=
          log_failed_article st.failed article_uuid lnk
            "content_extraction_error"
            ("Error fetching content for " ++ fetch_url ++ ": " ++ m) }, existing⟩

/-- Model of process_single_article (src/article_processer.py lines 214-284).
External effects are parameters: resolve is the gnews URL-resolution
outcome, extraction the get_article_content outcome, freshUuid the uuid4
value drawn at line 231, detectedLang and metadataInsertOk as in
write_article_to_db.  An empty or already-known link is skipped; inline
content goes straight to the store; otherwise the link is fetched (for
news.google.com after URL resolution, whose failure is logged and returns
failed). -/
def process_single_article (st : DBState) (existing : List String)
    (item : ItemInput) (source_name source_url : String)
    (resolve : ResolveOutcome) (extraction : ExtractOutcome)
    (freshUuid detectedLang : String) (metadataInsertOk : Bool) : ProcResult :=
  if item.link == "" || existing.contains item.link then
    ⟨false, .skipped, st, existing⟩
  else
    let article_uuid := freshUuid
    match item.inline_content with
    | some c =>
      finish_article st existing item source_url article_uuid detectedLang
        metadataInsertOk c item.link
    | none =>
      if source_name == "news.google.com" then
        match resolve with
        | .resolved u =>
          fetch_phase st existing item source_url article_uuid detectedLang
            metadataInsertOk extraction u u
        | .noResolve =>
          ⟨false, .failed,
            { st with
              failed :=
                log_failed_article st.failed article_uuid item.link
                  "url_resolution_failed"
                  "Failed to resolve gnews URL" }, existing⟩
        | .raisedResolve m =>
          ⟨false, .failed,
            { st with
              failed :=
                log_failed_article st.failed article_uuid item.link
                  "url_resolution_error"
                  ("Exception resolving gnews URL: " ++ m) }, existing⟩
      else
        fetch_phase st existing item source_url article_uuid detectedLang
          metadataInsertOk extraction item.link item.link

/-! ## Chunking and vector sync (src/vector_db.py, src/django_config.py) -/

/-- The pinecone section of the configuration, as read by
prepare_article_for_embedding: config.get("pinecone", {}).get("max_words_per_chunk", 5500). -/
structure VConfig where
  max_words_per_chunk : Nat
deriving DecidableEq, Repr, Inhabited

/-- An article dict as produced by fetch_articles_from_db. -/
structure EArticle where
  uuid : String
  url : String
  title : String
  pub_date : Option String
  description : String
  content : String
  category : String
  language : String
  source_url : String
  domain : String
  fetched_at : Option String
  word_count : Nat
  creator : String
deriving DecidableEq, Repr, Inhabited

/-- The metadata dict attached to every vector by
prepare_article_for_embedding (src/vector_db.py lines 270-286 and 294-310):
title, description, content and category are sliced to 500, 1000, 2000 and
300 characters. -/
structure ChunkMeta where
  uuid : String
  url : String
  title : String
  pub_date : Option String
  description : String
  content : String
  category : String
  language : String
  source_url : String
  domain : String
  fetched_at : Option String
  word_count : Nat
  creator : String
  chunk_index : Nat
  total_chunks : Nat
deriving DecidableEq, Repr, Inhabited

/-- The metadata of chunk idx of total for an article. -/
def chunk_meta (a : EArticle) (idx total : Nat) : ChunkMeta :=
  ⟨a.uuid, a.url, pyslice a.title 500, a.pub_date, pyslice a.description 1000,
    pyslice a.content 2000, pyslice a.category 300, a.language, a.source_url,
    a.domain, a.fetched_at, a.word_count, a.creator, idx, total⟩

/-- Model of chunk_text_by_words (src/vector_db.py lines 252-259): the
Python loop appends, for each i in range(0, len(words), max_words), the
chunk words[i : i + max_words] joined with single spaces; the i traversed by
that range are the first ceil(len/step) multiples of the step (the model
covers a positive step; Python range raises on step zero). -/
def chunk_text_by_words (text : String) (max_words_per_chunk : Nat) :
    List String :=
  let words := pysplit text
  (List.range ((words.length + max_words_per_chunk - 1) / max_words_per_chunk)).map
    (fun i => String.intercalate " " ((words.drop (i * max_words_per_chunk)).take
      max_words_per_chunk))

/-- The text_to_embed of prepare_article_for_embedding (src/vector_db.py
line 262): the f-string joining title, description and content with single
spaces. -/
def embed_text (a : EArticle) : String :=
  a.title ++ " " ++ a.description ++ " " ++ a.content

/-- Model of prepare_article_for_embedding (src/vector_db.py lines 261-313):
concatenate title, description and content with single spaces; within the
word budget, one chunk of the text sliced to 8000 characters with
chunk_index 0 and total_chunks 1; above the budget, one chunk per word
group, each sliced to 8000 characters, with its index and the group count
in the metadata. -/
def prepare_article_for_embedding (a : EArticle) (cfg : VConfig) :
    List (String × ChunkMeta) :=
  let words := pysplit (embed_text a)
  let word_count := words.length
  if word_count ≤ cfg.max_words_per_chunk then
    [(pyslice (embed_text a) 8000, chunk_meta a 0 1)]
  else
    let chunks := chunk_text_by_words (embed_text a) cfg.max_words_per_chunk
    chunks.enum.map (fun p => (pyslice p.2 8000, chunk_meta a p.1 chunks.length))

/-- A row of the failed_vector_embeddings table
(FailedVectorEmbeddingsModel.get_model, src/django_config.py lines 246-260):
the FailedEmbeddingChunk ledger. -/
structure FailedEmbeddingRow where
  article_uuid : String
  url : String
  title : String
  domain : String
  error_type : String
  error_message : String
  chunk_index : Nat
  total_chunks : Nat
  attempt_count : Nat
deriving DecidableEq, Repr, Inhabited

/-- Model of log_failed_embedding (src/vector_db.py lines 112-141): update
the first row matching (article_uuid, chunk_index), incrementing
attempt_count and refreshing the error fields, or create a new row with
attempt_count 1. -/
def log_failed_embedding (ledger : List FailedEmbeddingRow)
    (article_uuid url title domain error_type error_message : String)
    (chunk_index total_chunks : Nat) : List FailedEmbeddingRow :=
  match ledger with
  | [] => [⟨article_uuid, url, title, domain, error_type, error_message,
      chunk_index, total_chunks, 1⟩]
  | r :: rs =>
    if r.article_uuid == article_uuid && r.chunk_index == chunk_index then
      { r with
        attempt_count := r.attempt_count + 1
        error_message := error_message
        error_type := error_type } :: rs
    else
      r :: log_failed_embedding rs article_uuid url title domain error_type
        error_message chunk_index total_chunks

/-- The status column of the vector_database_tracking table. -/
inductive SyncStatus where
  | pending
  | synced
  | failed
deriving DecidableEq, Repr, Inhabited

/-- A row of the vector_database_tracking table
(VectorDatabaseTrackingModel.get_model, src/django_config.py lines 296-312).
The ns field is the namespace column.  The article_uuid column carries
unique=True, a global uniqueness constraint over the whole table, not a
constraint per (article_uuid, namespace) pair. -/
structure TrackingRow where
  article_uuid : String
  url : String
  title : String
  domain : String
  ns : String
  vector_id : String
  status : SyncStatus
  total_chunks : Nat
  synced_chunks : Nat
  error_message : String
deriving DecidableEq, Repr, Inhabited

/-- The state owned by the vector-sync component: the tracking table and the
failed-embeddings ledger. -/
structure VState where
  tracking : List TrackingRow
  embed_ledger : List FailedEmbeddingRow
deriving DecidableEq, Repr, Inhabited

/-- Model of is_article_synced_to_vector_db (src/vector_db.py lines 13-26):
does a tracking row with this uuid, this namespace and status synced
exist. -/
def is_article_synced_to_vector_db (st : VState) (article_uuid ns : String) :
    Bool :=
  st.tracking.any (fun r =>
    r.article_uuid == article_uuid && r.ns == ns && r.status == .synced)

/-- Update of the first tracking row matching (article_uuid, namespace),
modelling objects.filter(...).first() followed by save(). -/
def update_first_tracking (rows : List TrackingRow) (article_uuid ns : String)
    (f : TrackingRow → TrackingRow) : List TrackingRow :=
  match rows with
  | [] => []
  | r :: rs =>
    if r.article_uuid == article_uuid && r.ns == ns then f r :: rs
    else r :: update_first_tracking rs article_uuid ns f

/-- Model of mark_article_as_synced (src/vector_db.py lines 28-61): update
the first row matching (article_uuid, namespace) to synced, or create a new
synced row.  The create raises IntegrityError whenever any existing row —
in any namespace — already carries the article_uuid, because the column is
globally unique; the handler catches it and returns False with the table
unchanged. -/
def mark_article_as_synced (st : VState)
    (article_uuid url title domain ns vector_id : String)
    (total_chunks : Nat) : Bool × VState :=
  if st.tracking.any (fun r => r.article_uuid == article_uuid && r.ns == ns) then
    (true, { st with
      tracking :=
        update_first_tracking st.tracking article_uuid ns (fun r =>
          { r with
            status := .synced
            vector_id := vector_id
            total_chunks := total_chunks
            synced_chunks := total_chunks
            error_message := "" }) })
  else
    if st.tracking.any (fun r => r.article_uuid == article_uuid) then
      (false, st)
    else
      (true, { st with
        tracking := st.tracking ++
          [⟨article_uuid, url, title, domain, ns, vector_id, .synced,
            total_chunks, total_chunks, ""⟩] })

/-- Model of mark_article_as_failed (src/vector_db.py lines 63-89): update
the first row matching (article_uuid, namespace) to failed, or create a new
failed row (total_chunks defaults to 1, synced_chunks to 0, vector_id
blank).  As in mark_article_as_synced, the create raises IntegrityError when
any row already carries the article_uuid. -/
def mark_article_as_failed (st : VState)
    (article_uuid url title domain error_message ns : String) : Bool × VState :=
  if st.tracking.any (fun r => r.article_uuid == article_uuid && r.ns == ns) then
    (true, { st with
      tracking :=
        update_first_tracking st.tracking article_uuid ns (fun r =>
          { r with
            status := .failed
            error_message := error_message }) })
  else
    if st.tracking.any (fun r => r.article_uuid == article_uuid) then
      (false, st)
    else
      (true, { st with
        tracking := st.tracking ++
          [⟨article_uuid, url, title, domain, ns, "", .failed, 1, 0,
            error_message⟩] })

/-- The chunk-collection loop of prepare_vectors_batch (src/vector_db.py
lines 362-373): for each article (by index) and each of its prepared chunks
(by index), skip a chunk whose stripped text is shorter than 10 characters
when skip_short is set, and otherwise record the chunk text together with
(article index, chunk index, chunk count). -/
def collect_chunks (articles : List EArticle) (cfg : VConfig)
    (skip_short : Bool) : List (String × Nat × Nat × Nat) :=
  (articles.enum.map (fun ai =>
    (prepare_article_for_embedding ai.2 cfg).enum.filterMap (fun ci =>
      if skip_short && (pystrip ci.2.1).length < 10 then none
      else some (ci.2.1, ai.1, ci.1,
        (prepare_article_for_embedding ai.2 cfg).length)))).flatten

/-- A vector dict as handed to the vector store: id, values, metadata.  The
numeric embedding values come from the external embedding provider; their
type is opaque to the pipeline, so the model uses integer lists. -/
structure PVector where
  id : String
  values : List Int
  metadata : ChunkMeta
deriving DecidableEq, Repr, Inhabited

/-- Model of prepare_vectors_batch (src/vector_db.py lines 358-410).  The
external embedding call is modelled by embedF (the per-text vector, the
provider being order-preserving) and embedOk (whether the batch call
raises; it is batch-atomic).  Returns the prepared vectors, the resulting
failed-embeddings ledger, and the list of texts actually submitted to the
embedder (empty when there was nothing to embed, since embed_texts_batch
returns early on an empty input).  On success each vector gets id
uuid_chunk_idx (underscores as in the source f-string) and the metadata of
its chunk; on an embedding failure no vectors are returned and every
collected chunk is logged to the ledger with its chunk index and chunk
count. -/
def prepare_vectors_batch (articles : List EArticle) (cfg : VConfig)
    (embedF : String → List Int) (embedOk : Bool) (embedErrMsg : String)
    (ledger : List FailedEmbeddingRow) (skip_short : Bool) :
    List PVector × List FailedEmbeddingRow × List String :=
  let collected := collect_chunks articles cfg skip_short
  let texts := collected.map (fun q => q.1)
  if texts.isEmpty then ([], ledger, [])
  else if embedOk then
    (collected.map (fun q =>
      let article := articles.getD q.2.1 default
      let chunk_data := prepare_article_for_embedding article cfg
      let md := (chunk_data.getD q.2.2.1 default).2
      ⟨article.uuid ++ "_chunk_" ++ toString q.2.2.1, embedF q.1, md⟩),
      ledger, texts)
  else
    ([], collected.foldl (fun led q =>
      let article := articles.getD q.2.1 default
      log_failed_embedding led article.uuid article.url
        (pyslice article.title 500) article.domain "EmbeddingGenerationError"
        embedErrMsg q.2.2.1 q.2.2.2) ledger, texts)

/-- The stats dict of upsert_articles_to_pinecone. -/
structure UpsertStats where
  total : Nat
  upserted : Nat
  failed : Nat
  skipped : Nat
  already_synced : Nat
deriving DecidableEq, Repr, Inhabited

/-- Result of upsert_articles_to_pinecone: the stats, the resulting state,
the articles_to_process list, the batches of texts submitted to the
embedder, and the vector batches handed to index.upsert. -/
structure SyncResult where
  stats : UpsertStats
  st : VState
  processed_articles : List EArticle
  embed_calls : List (List String)
  upsert_calls : List (List PVector)
deriving DecidableEq, Repr, Inhabited

/-- The success branch of a batch (src/vector_db.py lines 461-466): each
article of the batch is marked synced — with the default vector_id "" and
the default total_chunks 1, since the call site passes neither. -/
def mark_synced_step (ns : String) (s : VState) (art : EArticle) : VState :=
  (mark_article_as_synced s art.uuid art.url (pyslice art.title 500)
    art.domain ns "" 1).2

/-- The failure branch of a batch (src/vector_db.py lines 472-486): each
article of the batch is marked failed and one failed-embedding entry is
logged for it with the default chunk_index 0 and total_chunks 1 (the call
site passes neither). -/
def mark_failed_step (ns : String) (s : VState) (art : EArticle) : VState :=
  let s1 := (mark_article_as_failed s art.uuid art.url (pyslice art.title 500)
    art.domain "Failed to upsert vectors to Pinecone" ns).2
  { s1 with
    embed_ledger :=
      log_failed_embedding s1.embed_ledger art.uuid art.url
        (pyslice art.title 500) art.domain "VectorUpsertError"
        "Failed to upsert vectors to Pinecone" 0 1 }

/-- The row mark_article_as_failed creates for an article not yet tracked in
any namespace, with the defaults of the upsert-failure call site
(src/vector_db.py line 477): no vector_id, total_chunks 1, synced_chunks 0. -/
def failed_tracking_row (art : EArticle) (ns : String) : TrackingRow :=
  ⟨art.uuid, art.url, pyslice art.title 500, art.domain, ns, "", .failed, 1, 0,
    "Failed to upsert vectors to Pinecone"⟩

/-- The ledger row log_failed_embedding creates for an article with no prior
(uuid, chunk 0) entry, with the defaults of the upsert-failure call site
(src/vector_db.py lines 478-486): chunk_index 0 and total_chunks 1. -/
def upsert_failure_row (art : EArticle) : FailedEmbeddingRow :=
  ⟨art.uuid, art.url, pyslice art.title 500, art.domain, "VectorUpsertError",
    "Failed to upsert vectors to Pinecone", 0, 1, 1⟩

/-- The batch loop of upsert_articles_to_pinecone (src/vector_db.py lines
454-489), processing articles_to_process in slices of bs1 + 1 (the batch
size; the successor form keeps the model total, Python range raising on a
zero step).  Every iteration consumes at least one article, so the caller
passes the article count as the structural fuel; the fuel-exhausted case is
unreachable.  The index i numbers the batches for the external outcome
functions; pa is the articles_to_process list carried into the result. -/
def run_batches (cfg : VConfig) (embedF : String → List Int)
    (embedOkAt upsertOkAt : Nat → Bool) (embedErrMsg ns : String) (bs1 : Nat)
    (pa : List EArticle) :
    Nat → Nat → List EArticle → VState → UpsertStats → List (List String) →
    List (List PVector) → SyncResult
  | _, _, [], st, stats, ec, uc => ⟨stats, st, pa, ec, uc⟩
  | 0, _, _ :: _, st, stats, ec, uc => ⟨stats, st, pa, ec, uc⟩
  | fuel + 1, i, a :: rest, st, stats, ec, uc =>
    let batch := a :: rest.take bs1
    let p := prepare_vectors_batch batch cfg embedF (embedOkAt i) embedErrMsg
      st.embed_ledger true
    let vectors := p.1
    let st1 : VState := { st with embed_ledger := p.2.1 }
    let ec1 := if p.2.2.isEmpty then ec else ec ++ [p.2.2]
    if vectors.isEmpty then
      run_batches cfg embedF embedOkAt upsertOkAt embedErrMsg ns bs1 pa
        fuel (i + 1) (rest.drop bs1) st1
        { stats with skipped := stats.skipped + batch.length } ec1 uc
    else
      if upsertOkAt i then
        run_batches cfg embedF embedOkAt upsertOkAt embedErrMsg ns bs1 pa
          fuel (i + 1) (rest.drop bs1) (batch.foldl (mark_synced_step ns) st1)
          { stats with upserted := stats.upserted + vectors.length } ec1
          (uc ++ [vectors])
      else
        run_batches cfg embedF embedOkAt upsertOkAt embedErrMsg ns bs1 pa
          fuel (i + 1) (rest.drop bs1) (batch.foldl (mark_failed_step ns) st1)
          { stats with failed := stats.failed + batch.length } ec1
          (uc ++ [vectors])

/-- Model of upsert_articles_to_pinecone (src/vector_db.py lines 427-491).
indexInitOk is whether get_pinecone_index succeeds (on failure every article
is counted failed); already-synced articles are filtered out and counted
already_synced; the remaining articles_to_process run through the batch
loop. -/
def upsert_articles_to_pinecone (cfg : VConfig) (embedF : String → List Int)
    (embedOkAt upsertOkAt : Nat → Bool) (embedErrMsg : String)
    (indexInitOk : Bool) (st : VState) (articles : List EArticle)
    (bs1 : Nat) (ns : String) : SyncResult :=
  let stats0 : UpsertStats := ⟨articles.length, 0, 0, 0, 0⟩
  if articles.isEmpty then ⟨stats0, st, [], [], []⟩
  else if !indexInitOk then
    ⟨{ stats0 with failed := articles.length }, st, [], [], []⟩
  else
    let to_process := articles.filter (fun a =>
      !is_article_synced_to_vector_db st a.uuid ns)
    let stats1 := { stats0 with
      already_synced := (articles.filter (fun a =>
        is_article_synced_to_vector_db st a.uuid ns)).length }
    if to_process.isEmpty then ⟨stats1, st, to_process, [], []⟩
    else
      run_batches cfg embedF embedOkAt upsertOkAt embedErrMsg ns bs1
        to_process to_process.length 0 to_process st stats1 [] []

/-! ## Theorems -/

theorem run_chain_all_none (beh : String → StratRaw) (ms : List String)
    (h : ∀ m ∈ ms, run_strategy (beh m) = none) :
    run_chain beh ms = (none, ms) := by
  induction ms with
  | nil => rfl
  | cons m ms ih =>
    have hm : run_strategy (beh m) = none := h m (List.mem_cons_self m ms)
    simp only [run_chain, hm]
    rw [ih (fun x hx => h x (List.mem_cons_of_mem m hx))]

theorem run_chain_first_accept (beh : String → StratRaw) (pre : List String)
    (b : String) (suf : List String) (t : String)
    (hpre : ∀ m ∈ pre, run_strategy (beh m) = none)
    (hb : run_strategy (beh b) = some t) :
    run_chain beh (pre ++ b :: suf) = (some t, pre ++ [b]) := by
  induction pre with
  | nil => simp only [List.nil_append, run_chain, hb]
  | cons m ms ih =>
    have hm : run_strategy (beh m) = none := hpre m (List.mem_cons_self m ms)
    have ih2 := ih (fun x hx => hpre x (List.mem_cons_of_mem m hx))
    simp only [List.cons_append, run_chain, hm, List.append_eq, ih2]

theorem get_article_content_all_eq (beh : String → StratRaw) :
    get_article_content beh "all" = run_chain beh extraction_methods := by
  have h : pylower "all" = "all" := by decide
  simp [get_article_content, h]

/-- C2: with no per-domain preferred method (method "all"), extraction tries
the strategies in the fixed priority order, accepts an output only when the
stripped text exceeds 100 characters, returns the first acceptable output
without invoking any later strategy, and returns the absence value none when
every strategy fails or returns insufficient text (the result type is an
Option: no exception reaches the caller). -/
theorem extraction_chain_short_circuit :
    (∀ (beh : String → StratRaw) (pre : List String) (b : String)
        (suf : List String) (t : String),
      extraction_methods = pre ++ b :: suf →
      (∀ m ∈ pre, run_strategy (beh m) = none) →
      run_strategy (beh b) = some t →
      get_article_content beh "all" = (some t, pre ++ [b])) ∧
    (∀ beh : String → StratRaw,
      (∀ m ∈ extraction_methods, run_strategy (beh m) = none) →
      get_article_content beh "all" = (none, extraction_methods)) ∧
    (∀ s : String, run_strategy (.fetchedText s) = some s ↔
      (pystrip s).length > 100) := by
  refine ⟨?_, ?_, ?_⟩
  · intro beh pre b suf t horder hpre hb
    rw [get_article_content_all_eq, horder]
    exact run_chain_first_accept beh pre b suf t hpre hb
  · intro beh hall
    rw [get_article_content_all_eq]
    exact run_chain_all_none beh extraction_methods hall
  · intro s
    by_cases h : (pystrip s).length > 100 <;> simp [run_strategy, h]

/-- Witness for C2: the first strategy returns text below the threshold, the
second returns 101 characters; the result is the second strategy's output
and the last three strategies are never invoked. -/
theorem extraction_chain_short_circuit_witness :
    get_article_content
      (fun m => if m = "newspaper3k" then StratRaw.fetchedText "tiny"
        else if m = "trafilatura" then
          StratRaw.fetchedText (String.mk (List.replicate 101 'a'))
        else StratRaw.raised) "all"
      = (some (String.mk (List.replicate 101 'a')),
         ["newspaper3k", "trafilatura"]) :=
  extraction_chain_short_circuit.1
    (fun m => if m = "newspaper3k" then StratRaw.fetchedText "tiny"
      else if m = "trafilatura" then
        StratRaw.fetchedText (String.mk (List.replicate 101 'a'))
      else StratRaw.raised)
    ["newspaper3k"] "trafilatura" ["readability", "playwright", "jina"]
    (String.mk (List.replicate 101 'a')) rfl (by decide) (by decide)

/-- C8: change detection returns has_changed = (new_hash != previous_hash):
a failed fetch returns false and leaves the stored hash entry unchanged; an
unchanged (identically hashing) document returns false with the map
unchanged; with no prior hash a successfully fetched, parsed and saved
document is treated as changed; and with a prior hash the result is true
exactly when the new hash differs from the stored one. -/
theorem feed_change_detection (hashF : String → String)
    (parseF : String → Option String) (url : String)
    (hashes : List (String × String)) (content rss prev : String)
    (saveOk : Bool) :
    (process_rss_feed hashF parseF saveOk url hashes none =
      ⟨false, hashes, none⟩) ∧
    (parseF content = some rss → lookup_hash hashes url = some (hashF rss) →
      process_rss_feed hashF parseF saveOk url hashes (some content) =
        ⟨false, hashes, none⟩) ∧
    (parseF content = some rss → lookup_hash hashes url = none → saveOk = true →
      (process_rss_feed hashF parseF saveOk url hashes (some content)).changed
        = true) ∧
    (parseF content = some rss → lookup_hash hashes url = some prev →
      saveOk = true →
      ((process_rss_feed hashF parseF saveOk url hashes (some content)).changed
        = true ↔ prev ≠ hashF rss)) := by
  refine ⟨rfl, ?_, ?_, ?_⟩
  · intro hp hl
    simp only [process_rss_feed, hp, hl]
    simp
  · intro hp hl hs
    simp only [process_rss_feed, hp, hl, hs]
    simp
  · intro hp hl hs
    simp only [process_rss_feed, hp, hl, hs]
    by_cases hne : prev = hashF rss
    · simp [hne]
    · simp [hne]

/-- Witness for C8: a stored hash equal to the new document's hash yields
has_changed = false with the map untouched. -/
theorem feed_change_detection_witness :
    process_rss_feed (fun s => s) (fun s => some s) true "u" [("u", "doc")]
      (some "doc") = ⟨false, [("u", "doc")], none⟩ :=
  (feed_change_detection (fun s => s) (fun s => some s) "u" [("u", "doc")]
    "doc" "doc" "doc" true).2.1 rfl rfl

theorem write_article_duplicate (st : DBState) (a : ArticleInput)
    (u lang : String) (mok : Bool)
    (h : st.rss.any (fun r => r.url == a.link || r.uuid == a.uuidOpt.getD u)
      = true) :
    write_article_to_db st a u lang mok = (.duplicate, st) := by
  simp only [write_article_to_db]
  rw [h]
  simp

theorem write_article_inserted (st : DBState) (a : ArticleInput)
    (u lang : String)
    (h : st.rss.any (fun r => r.url == a.link || r.uuid == a.uuidOpt.getD u)
      = false) :
    write_article_to_db st a u lang true =
      (.inserted,
       ⟨st.rss ++ [⟨a.link, a.uuidOpt.getD u, a.source_url, netlocOf a.link⟩],
        st.metadata ++ [⟨a.uuidOpt.getD u, a.link, a.title, a.pub_date,
          a.description, a.content, a.creator, a.given_category, a.word_count,
          lang⟩],
        st.failed⟩) := by
  simp only [write_article_to_db]
  rw [h]
  simp

/-- C1: ingesting the same link twice yields exactly one persisted Article
row: the first call inserts, the second hits the unique-link constraint and
takes the dedicated IntegrityError branch — the duplicate outcome, distinct
from the failure outcome — leaving every table exactly as it was. -/
theorem dedup_unique_link (st : DBState) (a1 a2 : ArticleInput)
    (u1 u2 lang1 lang2 : String) (mok2 : Bool)
    (hlink : a2.link = a1.link)
    (hnourl : ∀ r ∈ st.rss, r.url ≠ a1.link)
    (hnouuid : ∀ r ∈ st.rss, r.uuid ≠ a1.uuidOpt.getD u1) :
    (write_article_to_db st a1 u1 lang1 true).1 = .inserted ∧
    (write_article_to_db (write_article_to_db st a1 u1 lang1 true).2 a2 u2
      lang2 mok2).1 = .duplicate ∧
    (write_article_to_db (write_article_to_db st a1 u1 lang1 true).2 a2 u2
      lang2 mok2).1 ≠ .failedWrite ∧
    (write_article_to_db (write_article_to_db st a1 u1 lang1 true).2 a2 u2
      lang2 mok2).2 = (write_article_to_db st a1 u1 lang1 true).2 ∧
    ((write_article_to_db (write_article_to_db st a1 u1 lang1 true).2 a2 u2
      lang2 mok2).2.rss.filter (fun r => r.url == a1.link)).length = 1 := by
  have h1 : st.rss.any
      (fun r => r.url == a1.link || r.uuid == a1.uuidOpt.getD u1) = false := by
    rw [List.any_eq_false]
    intro r hr
    simp [hnourl r hr, hnouuid r hr]
  have e1 := write_article_inserted st a1 u1 lang1 h1
  rw [e1]
  have h2 : ((st.rss ++ [(⟨a1.link, a1.uuidOpt.getD u1, a1.source_url,
      netlocOf a1.link⟩ : RssRow)]).any
      (fun r => r.url == a2.link || r.uuid == a2.uuidOpt.getD u2)) = true := by
    rw [List.any_append]
    simp [hlink]
  have e2 := write_article_duplicate
    ⟨st.rss ++ [⟨a1.link, a1.uuidOpt.getD u1, a1.source_url,
      netlocOf a1.link⟩],
     st.metadata ++ [⟨a1.uuidOpt.getD u1, a1.link, a1.title, a1.pub_date,
       a1.description, a1.content, a1.creator, a1.given_category,
       a1.word_count, lang1⟩],
     st.failed⟩ a2 u2 lang2 mok2 h2
  rw [e2]
  have hnil : st.rss.filter (fun r => r.url == a1.link) = [] := by
    rw [List.filter_eq_nil_iff]
    intro r hr
    simp [hnourl r hr]
  refine ⟨rfl, rfl, by simp, rfl, ?_⟩
  rw [List.filter_append, hnil]
  simp

/-- Witness for C1: on an empty store, the first insert of a link succeeds
and a second article with the same link but a different uuid is rejected as
a duplicate, leaving the single row in place. -/
theorem dedup_unique_link_witness :
    (write_article_to_db ⟨[], [], []⟩
      ⟨"http://example.com/a", "T", none, "d", "c", "cr", "cat", 1, "s", none⟩
      "u-1" "en" true).1 = .inserted ∧
    (write_article_to_db (write_article_to_db ⟨[], [], []⟩
      ⟨"http://example.com/a", "T", none, "d", "c", "cr", "cat", 1, "s", none⟩
      "u-1" "en" true).2
      ⟨"http://example.com/a", "T2", none, "d", "c", "cr", "cat", 1, "s",
        some "u-2"⟩ "u-9" "en" true).1 = .duplicate ∧
    (write_article_to_db (write_article_to_db ⟨[], [], []⟩
      ⟨"http://example.com/a", "T", none, "d", "c", "cr", "cat", 1, "s", none⟩
      "u-1" "en" true).2
      ⟨"http://example.com/a", "T2", none, "d", "c", "cr", "cat", 1, "s",
        some "u-2"⟩ "u-9" "en" true).1 ≠ .failedWrite ∧
    (write_article_to_db (write_article_to_db ⟨[], [], []⟩
      ⟨"http://example.com/a", "T", none, "d", "c", "cr", "cat", 1, "s", none⟩
      "u-1" "en" true).2
      ⟨"http://example.com/a", "T2", none, "d", "c", "cr", "cat", 1, "s",
        some "u-2"⟩ "u-9" "en" true).2 =
      (write_article_to_db ⟨[], [], []⟩
      ⟨"http://example.com/a", "T", none, "d", "c", "cr", "cat", 1, "s", none⟩
      "u-1" "en" true).2 ∧
    ((write_article_to_db (write_article_to_db ⟨[], [], []⟩
      ⟨"http://example.com/a", "T", none, "d", "c", "cr", "cat", 1, "s", none⟩
      "u-1" "en" true).2
      ⟨"http://example.com/a", "T2", none, "d", "c", "cr", "cat", 1, "s",
        some "u-2"⟩ "u-9" "en" true).2.rss.filter
        (fun r => r.url == "http://example.com/a")).length = 1 :=
  dedup_unique_link ⟨[], [], []⟩
    ⟨"http://example.com/a", "T", none, "d", "c", "cr", "cat", 1, "s", none⟩
    ⟨"http://example.com/a", "T2", none, "d", "c", "cr", "cat", 1, "s",
      some "u-2"⟩ "u-1" "u-9" "en" "en" true rfl (by simp) (by simp)

/-- C7: evaluating write_article_to_db at an article whose metadata insert
fails.  The function returns the failure outcome — so the caller counts the
article as failed — but the FailedArticleRecord ledger stays empty: the
handler at src/article_processer.py line 175 passes four positional
arguments to the five-parameter log_failed_article of src/db_func.py, so
Python raises TypeError before any ledger write and the outer handler
swallows it.  The claim says the failure is logged to FailedArticleRecord
keyed by the uuid; the code never writes that record. -/
theorem metadata_failure_not_logged :
    metadata_failure_log_arg_count ≠ log_failed_article_param_count ∧
    write_article_to_db ⟨[], [], []⟩
        ⟨"http://example.com/a", "T", none, "", "", "", "", 0, "", some "u-1"⟩
        "u-1" "en" false
      = (.failedWrite,
         ⟨[⟨"http://example.com/a", "u-1", "", "example.com"⟩], [], []⟩) := by
  exact ⟨by decide, by decide⟩

/-- Counterexample for C6: a concrete feed item with no inline content whose
extraction returns the absence value.  The failure is logged to the
failed-articles ledger and the item is reported failed, but the Article
store stays empty: the claim that the article is nevertheless stored with
empty content and a content_source marker is false — process_single_article
returns failed before write_article_to_db is ever reached. -/
theorem extraction_failure_not_stored_counterexample :
    (process_single_article ⟨[], [], []⟩ []
      ⟨"T", "http://example.com/x", none, "", "", "", none⟩ "somefeed" ""
      .noResolve (.completed none) "u-1" "en" true).st.rss = [] ∧
    (process_single_article ⟨[], [], []⟩ []
      ⟨"T", "http://example.com/x", none, "", "", "", none⟩ "somefeed" ""
      .noResolve (.completed none) "u-1" "en" true).st.metadata = [] ∧
    (process_single_article ⟨[], [], []⟩ []
      ⟨"T", "http://example.com/x", none, "", "", "", none⟩ "somefeed" ""
      .noResolve (.completed none) "u-1" "en" true).status = .failed ∧
    (process_single_article ⟨[], [], []⟩ []
      ⟨"T", "http://example.com/x", none, "", "", "", none⟩ "somefeed" ""
      .noResolve (.completed none) "u-1" "en" true).st.failed =
      [⟨"u-1", "http://example.com/x", "content_extraction_failed",
        "Failed to fetch content from: http://example.com/x", 1⟩] := by
  decide

/-- C6 as amended: when a feed item lacking inline content fails every
extraction strategy (extraction returns the absence value), the failure is
logged to the FailedArticleRecord ledger via log_failed_article (which
increments the attempt count on a repeated uuid) with error type
content_extraction_failed, and the item is reported failed — but the
article is not persisted: the Article store and metadata table are left
exactly as they were, the in-memory dict (marked with empty content and
content_source web_failed) being abandoned before any store write. -/
theorem extraction_failure_not_persisted (st : DBState)
    (existing : List String) (item : ItemInput)
    (source_name source_url : String) (resolve : ResolveOutcome)
    (u lang : String) (mok : Bool)
    (hinline : item.inline_content = none)
    (hlink : item.link ≠ "")
    (hnew : existing.contains item.link = false)
    (hsrc : source_name ≠ "news.google.com") :
    (process_single_article st existing item source_name source_url resolve
      (.completed none) u lang mok).status = .failed ∧
    (process_single_article st existing item source_name source_url resolve
      (.completed none) u lang mok).success = false ∧
    (process_single_article st existing item source_name source_url resolve
      (.completed none) u lang mok).st.rss = st.rss ∧
    (process_single_article st existing item source_name source_url resolve
      (.completed none) u lang mok).st.metadata = st.metadata ∧
    (process_single_article st existing item source_name source_url resolve
      (.completed none) u lang mok).st.failed =
      log_failed_article st.failed u item.link "content_extraction_failed"
        ("Failed to fetch content from: " ++ item.link) ∧
    (process_single_article st existing item source_name source_url resolve
      (.completed none) u lang mok).existing_urls = existing := by
  have hmem : item.link ∉ existing := by
    simpa using hnew
  have hc : (item.link == "" || existing.contains item.link) = false := by
    simp [hlink, hmem]
  have hs : (source_name == "news.google.com") = false := by
    simp [hsrc]
  simp only [process_single_article, hc, hinline, hs, fetch_phase,
    Bool.false_eq_true, if_false]
  simp [hmem]

/-- Witness for the amended C6: the concrete failed item of the
counterexample, reached through the general theorem. -/
theorem extraction_failure_not_persisted_witness :
    (process_single_article ⟨[], [], [⟨"u-1", "http://old.example/y",
      "content_extraction_failed", "old", 1⟩]⟩ ["http://other.example/z"]
      ⟨"T", "http://example.com/x", none, "", "", "", none⟩ "somefeed" ""
      .noResolve (.completed none) "u-1" "en" true).st.failed =
      log_failed_article [⟨"u-1", "http://old.example/y",
        "content_extraction_failed", "old", 1⟩] "u-1" "http://example.com/x"
        "content_extraction_failed"
        "Failed to fetch content from: http://example.com/x" :=
  (extraction_failure_not_persisted
    ⟨[], [], [⟨"u-1", "http://old.example/y", "content_extraction_failed",
      "old", 1⟩]⟩ ["http://other.example/z"]
    ⟨"T", "http://example.com/x", none, "", "", "", none⟩ "somefeed" ""
    .noResolve "u-1" "en" true rfl (by decide) (by decide)
    (by decide)).2.2.2.2.1

/-- C9: evaluating the tracking store at one article synced into two
distinct namespaces.  The first mark succeeds and creates the row for
namespace ns-a; the second mark, for namespace ns-b, finds no
(uuid, namespace) match, attempts a create, and hits the IntegrityError from
the global unique constraint on article_uuid
(src/django_config.py line 298) — it returns False and the store still
holds exactly the one ns-a row, no row for ns-b.  The claim that the same
article can hold separate tracking rows in different namespaces is false of
the schema, although every accessor filters by (article_uuid, namespace). -/
theorem tracking_unique_uuid_blocks_second_namespace :
    (mark_article_as_synced ⟨[], []⟩ "u1" "http://e.com/a" "T" "e.com" "ns-a"
      "" 1).1 = true ∧
    (mark_article_as_synced ⟨[], []⟩ "u1" "http://e.com/a" "T" "e.com" "ns-a"
      "" 1).2.tracking =
      [⟨"u1", "http://e.com/a", "T", "e.com", "ns-a", "", .synced, 1, 1, ""⟩] ∧
    (mark_article_as_synced (mark_article_as_synced ⟨[], []⟩ "u1"
      "http://e.com/a" "T" "e.com" "ns-a" "" 1).2 "u1" "http://e.com/a" "T"
      "e.com" "ns-b" "" 1).1 = false ∧
    (mark_article_as_synced (mark_article_as_synced ⟨[], []⟩ "u1"
      "http://e.com/a" "T" "e.com" "ns-a" "" 1).2 "u1" "http://e.com/a" "T"
      "e.com" "ns-b" "" 1).2.tracking =
      [⟨"u1", "http://e.com/a", "T", "e.com", "ns-a", "", .synced, 1, 1, ""⟩] ∧
    ((mark_article_as_synced (mark_article_as_synced ⟨[], []⟩ "u1"
      "http://e.com/a" "T" "e.com" "ns-a" "" 1).2 "u1" "http://e.com/a" "T"
      "e.com" "ns-b" "" 1).2.tracking.filter (fun r => r.ns == "ns-b")).length
      = 0 := by
  decide

/-- C4: when every article of the input is already tracked as synced in the
namespace, upsert_articles_to_pinecone skips them all: the stats report
every article as already_synced and nothing upserted, failed or skipped,
the tracking state is untouched, no text is ever submitted to the embedder
and no vector batch is handed to the store, and the articles_to_process
list is empty — running sync on a fully synced set is an idempotent
no-op. -/
theorem sync_idempotent_skip (cfg : VConfig) (embedF : String → List Int)
    (embedOkAt upsertOkAt : Nat → Bool) (embedErrMsg : String) (st : VState)
    (articles : List EArticle) (bs1 : Nat) (ns : String)
    (hsync : ∀ a ∈ articles, is_article_synced_to_vector_db st a.uuid ns
      = true) :
    upsert_articles_to_pinecone cfg embedF embedOkAt upsertOkAt embedErrMsg
      true st articles bs1 ns =
      ⟨⟨articles.length, 0, 0, 0, articles.length⟩, st, [], [], []⟩ := by
  by_cases he : articles.isEmpty
  · have hnil : articles = [] := by
      simpa [List.isEmpty_iff] using he
    subst hnil
    simp [upsert_articles_to_pinecone]
  · have h1 : articles.filter (fun a =>
        !is_article_synced_to_vector_db st a.uuid ns) = [] := by
      rw [List.filter_eq_nil_iff]
      intro a ha
      simp [hsync a ha]
    have h2 : articles.filter (fun a =>
        is_article_synced_to_vector_db st a.uuid ns) = articles :=
      List.filter_eq_self.mpr (fun a ha => hsync a ha)
    simp only [upsert_articles_to_pinecone, he, Bool.false_eq_true, if_false,
      Bool.not_true, h1, h2]
    simp

/-- Witness for C4: a single already-synced article is reported
already_synced with the state untouched and no embedding or upsert calls. -/
theorem sync_idempotent_skip_witness :
    upsert_articles_to_pinecone ⟨5500⟩ (fun _ => [1]) (fun _ => true)
      (fun _ => true) "m" true
      ⟨[⟨"u1", "http://e.com/a", "T", "e.com", "rss-feeds", "", .synced, 1, 1,
        ""⟩], []⟩
      [⟨"u1", "http://e.com/a", "T", none, "d", "c", "", "en", "", "e.com",
        none, 1, ""⟩] 9 "rss-feeds" =
      ⟨⟨1, 0, 0, 0, 1⟩,
       ⟨[⟨"u1", "http://e.com/a", "T", "e.com", "rss-feeds", "", .synced, 1, 1,
         ""⟩], []⟩, [], [], []⟩ :=
  sync_idempotent_skip ⟨5500⟩ (fun _ => [1]) (fun _ => true) (fun _ => true)
    "m" ⟨[⟨"u1", "http://e.com/a", "T", "e.com", "rss-feeds", "", .synced, 1,
      1, ""⟩], []⟩
    [⟨"u1", "http://e.com/a", "T", none, "d", "c", "", "en", "", "e.com",
      none, 1, ""⟩] 9 "rss-feeds" (by decide)

theorem pyslice_length_le (s : String) (n : Nat) : (pyslice s n).length ≤ n := by
  have h : (pyslice s n).length = (s.data.take n).length := rfl
  rw [h, List.length_take]
  omega

theorem prepare_chunk_le_8000 (a : EArticle) (cfg : VConfig) :
    ∀ p ∈ prepare_article_for_embedding a cfg, p.1.length ≤ 8000 := by
  intro p hp
  simp only [prepare_article_for_embedding] at hp
  split at hp
  · simp only [List.mem_singleton] at hp
    subst hp
    exact pyslice_length_le _ _
  · rw [List.mem_map] at hp
    obtain ⟨q, _, rfl⟩ := hp
    exact pyslice_length_le _ _

theorem collect_chunk_le_8000 (articles : List EArticle) (cfg : VConfig)
    (skip : Bool) :
    ∀ q ∈ collect_chunks articles cfg skip, q.1.length ≤ 8000 := by
  intro q hq
  simp only [collect_chunks] at hq
  rw [List.mem_flatten] at hq
  obtain ⟨inner, hinner, hqi⟩ := hq
  rw [List.mem_map] at hinner
  obtain ⟨ai, _, rfl⟩ := hinner
  rw [List.mem_filterMap] at hqi
  obtain ⟨ci, hci, hfi⟩ := hqi
  split at hfi
  · exact absurd hfi (by simp)
  · have hpe : ci.2 ∈ prepare_article_for_embedding ai.2 cfg :=
      List.snd_mem_of_mem_enum hci
    have := prepare_chunk_le_8000 ai.2 cfg ci.2 hpe
    cases hfi
    exact this

/-- C10: every chunk text produced for embedding is truncated to at most
8000 characters — in the single-chunk case the whole concatenated
title-description-content text is cut at 8000 characters — and every text
collected for submission to the embedder by the batch-preparation loop obeys
the same bound, whatever the word-count budget allows. -/
theorem embedded_text_truncated_to_8000 (a : EArticle) (cfg : VConfig)
    (articles : List EArticle) (skip : Bool) :
    (∀ p ∈ prepare_article_for_embedding a cfg, p.1.length ≤ 8000) ∧
    ((pysplit (embed_text a)).length ≤ cfg.max_words_per_chunk →
      prepare_article_for_embedding a cfg =
        [(pyslice (embed_text a) 8000, chunk_meta a 0 1)]) ∧
    (∀ q ∈ collect_chunks articles cfg skip, q.1.length ≤ 8000) := by
  refine ⟨prepare_chunk_le_8000 a cfg, ?_,
    collect_chunk_le_8000 articles cfg skip⟩
  intro h
  simp [prepare_article_for_embedding, h]

/-- Witness for C10: a short article is embedded as the single concatenated
text cut at 8000 characters. -/
theorem embedded_text_truncated_to_8000_witness :
    prepare_article_for_embedding
      ⟨"u", "http://e.com/a", "t", none, "d", "c", "", "en", "", "e.com",
        none, 3, ""⟩ ⟨5500⟩ =
      [(pyslice (embed_text ⟨"u", "http://e.com/a", "t", none, "d", "c", "",
        "en", "", "e.com", none, 3, ""⟩) 8000,
        chunk_meta ⟨"u", "http://e.com/a", "t", none, "d", "c", "", "en", "",
          "e.com", none, 3, ""⟩ 0 1)] :=
  (embedded_text_truncated_to_8000
    ⟨"u", "http://e.com/a", "t", none, "d", "c", "", "en", "", "e.com",
      none, 3, ""⟩ ⟨5500⟩ [] true).2.1 (by decide)

theorem chunk_text_by_words_length (text : String) (B : Nat) :
    (chunk_text_by_words text B).length = ((pysplit text).length + B - 1) / B := by
  simp [chunk_text_by_words]

theorem prepare_length_eq (a : EArticle) (cfg : VConfig) :
    (prepare_article_for_embedding a cfg).length =
      if (pysplit (embed_text a)).length ≤ cfg.max_words_per_chunk then 1
      else ((pysplit (embed_text a)).length + cfg.max_words_per_chunk - 1) /
        cfg.max_words_per_chunk := by
  by_cases h : (pysplit (embed_text a)).length ≤ cfg.max_words_per_chunk <;>
    simp [prepare_article_for_embedding, h, chunk_text_by_words_length]

theorem filterMap_if_eq_map (l : List α) (c : α → Bool) (f : α → β)
    (h : ∀ x ∈ l, c x = false) :
    (l.filterMap fun x => if c x then none else some (f x)) = l.map f := by
  induction l with
  | nil => rfl
  | cons x xs ih =>
    have hx : c x = false := h x (List.mem_cons_self x xs)
    simp only [List.filterMap_cons, hx, Bool.false_eq_true, if_false,
      List.map_cons]
    rw [ih (fun y hy => h y (List.mem_cons_of_mem x hy))]

theorem prepare_ne_nil (a : EArticle) (cfg : VConfig)
    (hB : 1 ≤ cfg.max_words_per_chunk) :
    prepare_article_for_embedding a cfg ≠ [] := by
  intro h
  have := prepare_length_eq a cfg
  rw [h] at this
  simp only [List.length_nil] at this
  by_cases hW : (pysplit (embed_text a)).length ≤ cfg.max_words_per_chunk
  · rw [if_pos hW] at this
    omega
  · rw [if_neg hW] at this
    push_neg at hW
    have h1 : 1 ≤ ((pysplit (embed_text a)).length +
        cfg.max_words_per_chunk - 1) / cfg.max_words_per_chunk := by
      rw [Nat.one_le_div_iff (by omega)]
      omega
    omega

/-- C5: for word count W and chunk budget B (with B positive; the config
default is 5500), the article is prepared as a single chunk when W is within
the budget and as ceil(W/B) chunks in general for W ≥ 1; every chunk's
metadata carries its own index and the chunk count; and on a successful
embedding pass the prepared vectors carry the ids uuid_chunk_index for the
indices 0 up to the chunk count, with exactly the chunk's metadata. -/
theorem chunk_id_determinism (a : EArticle) (cfg : VConfig)
    (hB : 1 ≤ cfg.max_words_per_chunk) :
    ((pysplit (embed_text a)).length ≤ cfg.max_words_per_chunk →
      (prepare_article_for_embedding a cfg).length = 1) ∧
    (1 ≤ (pysplit (embed_text a)).length →
      (prepare_article_for_embedding a cfg).length =
        ((pysplit (embed_text a)).length + cfg.max_words_per_chunk - 1) /
          cfg.max_words_per_chunk) ∧
    ((prepare_article_for_embedding a cfg).map
        (fun p => p.2.chunk_index) =
      List.range (prepare_article_for_embedding a cfg).length ∧
     ∀ p ∈ prepare_article_for_embedding a cfg,
        p.2.total_chunks = (prepare_article_for_embedding a cfg).length) ∧
    (∀ (embedF : String → List Int) (embedErrMsg : String)
        (ledger : List FailedEmbeddingRow),
      (∀ p ∈ prepare_article_for_embedding a cfg,
        ¬ (pystrip p.1).length < 10) →
      ((prepare_vectors_batch [a] cfg embedF true embedErrMsg ledger
          true).1.map (fun v => v.id) =
        (List.range (prepare_article_for_embedding a cfg).length).map
          (fun i => a.uuid ++ "_chunk_" ++ toString i) ∧
       (prepare_vectors_batch [a] cfg embedF true embedErrMsg ledger
          true).1.map (fun v => v.metadata) =
        (prepare_article_for_embedding a cfg).map (fun p => p.2) ∧
       (prepare_vectors_batch [a] cfg embedF true embedErrMsg ledger
          true).2.1 = ledger)) := by
  refine ⟨?_, ?_, ⟨?_, ?_⟩, ?_⟩
  · intro h
    rw [prepare_length_eq, if_pos h]
  · intro hW
    rw [prepare_length_eq]
    by_cases h : (pysplit (embed_text a)).length ≤ cfg.max_words_per_chunk
    · rw [if_pos h]
      exact (Nat.div_eq_of_lt_le (by omega) (by omega)).symm
    · rw [if_neg h]
  · simp only [prepare_article_for_embedding]
    split
    · simp only [List.map_cons, List.map_nil, chunk_meta,
        List.length_singleton]
      decide
    · rw [List.map_map]
      have : ((fun p => p.2.chunk_index) ∘ fun p =>
          ((pyslice p.2 8000, chunk_meta a p.1
            (chunk_text_by_words (embed_text a)
              cfg.max_words_per_chunk).length) : String × ChunkMeta)) =
          fun p : Nat × String => p.1 := by
        funext p
        simp [chunk_meta]
      rw [this, List.enum_map_fst, List.length_map, List.enum_length]
  · intro p hp
    have hlen := prepare_length_eq a cfg
    simp only [prepare_article_for_embedding] at hp
    split at hp
    case isTrue h =>
      simp only [List.mem_singleton] at hp
      subst hp
      simp only [chunk_meta]
      rw [hlen, if_pos h]
    case isFalse h =>
      rw [List.mem_map] at hp
      obtain ⟨q, _, rfl⟩ := hp
      simp only [chunk_meta]
      rw [hlen, if_neg h, ← chunk_text_by_words_length]
  · intro embedF embedErrMsg ledger hlong
    have hcoll : collect_chunks [a] cfg true =
        (prepare_article_for_embedding a cfg).enum.map
          (fun ci => (ci.2.1, 0, ci.1,
            (prepare_article_for_embedding a cfg).length)) := by
      simp only [collect_chunks, List.enum_cons, List.enum_nil,
        List.map_cons, List.map_nil, List.flatten]
      rw [List.append_nil]
      exact filterMap_if_eq_map _ _ _ (fun x hx => by
        have : x.2 ∈ prepare_article_for_embedding a cfg :=
          List.snd_mem_of_mem_enum hx
        simp [hlong x.2 this])
    have hne : prepare_article_for_embedding a cfg ≠ [] :=
      prepare_ne_nil a cfg hB
    have hte : (collect_chunks [a] cfg true).map (fun q => q.1) ≠ [] := by
      rw [hcoll]
      simp [hne]
    simp only [prepare_vectors_batch]
    rw [if_neg (by simpa [List.isEmpty_iff] using hte)]
    rw [if_pos trivial]
    refine ⟨?_, ?_, rfl⟩
    · rw [hcoll, ← List.enum_map_fst (prepare_article_for_embedding a cfg)]
      simp only [List.map_map]
      apply List.map_eq_map_iff.mpr
      intro ci _
      simp [Function.comp]
    · rw [hcoll]
      conv_rhs => rw [← List.enum_map_snd (prepare_article_for_embedding
        a cfg)]
      simp only [List.map_map]
      apply List.map_eq_map_iff.mpr
      intro ci hci
      have hget := List.mem_enum_iff_getElem?.mp hci
      simp [Function.comp, hget]

/-- Witness for C5: an article of three words with a budget of two words is
split into two chunks carrying indices 0 and 1, chunk count 2, and vector
ids u1_chunk_0 and u1_chunk_1. -/
theorem chunk_id_determinism_witness :
    (prepare_article_for_embedding ⟨"u1", "http://e.com/a",
      "abcdefghijk lmnopqrstuv wxyzabcdefg", none, "", "", "", "en", "",
      "e.com", none, 3, ""⟩ ⟨2⟩).length =
      ((pysplit (embed_text ⟨"u1", "http://e.com/a",
        "abcdefghijk lmnopqrstuv wxyzabcdefg", none, "", "", "", "en", "",
        "e.com", none, 3, ""⟩)).length + 2 - 1) / 2 ∧
    (prepare_vectors_batch [⟨"u1", "http://e.com/a",
      "abcdefghijk lmnopqrstuv wxyzabcdefg", none, "", "", "", "en", "",
      "e.com", none, 3, ""⟩] ⟨2⟩ (fun _ => [1]) true "m" [] true).1.map
      (fun v => v.id) =
      (List.range (prepare_article_for_embedding ⟨"u1", "http://e.com/a",
        "abcdefghijk lmnopqrstuv wxyzabcdefg", none, "", "", "", "en", "",
        "e.com", none, 3, ""⟩ ⟨2⟩).length).map
        (fun i => "u1" ++ "_chunk_" ++ toString i) :=
  ⟨(chunk_id_determinism ⟨"u1", "http://e.com/a",
      "abcdefghijk lmnopqrstuv wxyzabcdefg", none, "", "", "", "en", "",
      "e.com", none, 3, ""⟩ ⟨2⟩ (by decide)).2.1 (by decide),
   ((chunk_id_determinism ⟨"u1", "http://e.com/a",
      "abcdefghijk lmnopqrstuv wxyzabcdefg", none, "", "", "", "en", "",
      "e.com", none, 3, ""⟩ ⟨2⟩ (by decide)).2.2.2 (fun _ => [1]) "m" []
      (by decide)).1⟩

theorem log_failed_embedding_fresh (led : List FailedEmbeddingRow)
    (u url t d et em : String) (ci tc : Nat)
    (h : ∀ r ∈ led, ¬(r.article_uuid = u ∧ r.chunk_index = ci)) :
    log_failed_embedding led u url t d et em ci tc =
      led ++ [⟨u, url, t, d, et, em, ci, tc, 1⟩] := by
  induction led with
  | nil => rfl
  | cons r rs ih =>
    have hr := h r (List.mem_cons_self r rs)
    have hcond : (r.article_uuid == u && r.chunk_index == ci) = false := by
      simp only [Bool.and_eq_false_iff, beq_eq_false_iff_ne, ne_eq]
      by_cases h1 : r.article_uuid = u
      · exact Or.inr (fun h2 => hr ⟨h1, h2⟩)
      · exact Or.inl h1
    simp only [log_failed_embedding, hcond, Bool.false_eq_true, if_false,
      List.cons_append]
    rw [ih (fun x hx => h x (List.mem_cons_of_mem r hx))]

theorem mark_article_as_failed_fresh (s : VState) (u url t d em ns : String)
    (h : ∀ r ∈ s.tracking, r.article_uuid ≠ u) :
    mark_article_as_failed s u url t d em ns =
      (true, { s with
        tracking := s.tracking ++ [⟨u, url, t, d, ns, "", .failed, 1, 0,
          em⟩] }) := by
  have h1 : s.tracking.any (fun r => r.article_uuid == u && r.ns == ns)
      = false := by
    rw [List.any_eq_false]
    intro r hr
    simp [h r hr]
  have h2 : s.tracking.any (fun r => r.article_uuid == u) = false := by
    rw [List.any_eq_false]
    intro r hr
    simp [h r hr]
  simp only [mark_article_as_failed, h1, h2, Bool.false_eq_true, if_false]

theorem mark_failed_step_fresh (ns : String) (s : VState) (art : EArticle)
    (hT : ∀ r ∈ s.tracking, r.article_uuid ≠ art.uuid)
    (hL : ∀ r ∈ s.embed_ledger,
      ¬(r.article_uuid = art.uuid ∧ r.chunk_index = 0)) :
    mark_failed_step ns s art =
      ⟨s.tracking ++ [failed_tracking_row art ns],
       s.embed_ledger ++ [upsert_failure_row art]⟩ := by
  simp only [mark_failed_step]
  rw [mark_article_as_failed_fresh s art.uuid art.url (pyslice art.title 500)
    art.domain "Failed to upsert vectors to Pinecone" ns hT]
  rw [log_failed_embedding_fresh s.embed_ledger art.uuid art.url
    (pyslice art.title 500) art.domain "VectorUpsertError"
    "Failed to upsert vectors to Pinecone" 0 1 hL]
  rfl

theorem fold_mark_failed (ns : String) (arts : List EArticle) (s : VState)
    (hT : ∀ a ∈ arts, ∀ r ∈ s.tracking, r.article_uuid ≠ a.uuid)
    (hL : ∀ a ∈ arts, ∀ r ∈ s.embed_ledger,
      ¬(r.article_uuid = a.uuid ∧ r.chunk_index = 0))
    (hdist : arts.Pairwise (fun x y => x.uuid ≠ y.uuid)) :
    arts.foldl (mark_failed_step ns) s =
      ⟨s.tracking ++ arts.map (fun a => failed_tracking_row a ns),
       s.embed_ledger ++ arts.map upsert_failure_row⟩ := by
  induction arts generalizing s with
  | nil =>
    cases s
    simp
  | cons a rest ih =>
    obtain ⟨hhead, htail⟩ := List.pairwise_cons.mp hdist
    rw [List.foldl_cons]
    rw [mark_failed_step_fresh ns s a
      (hT a (List.mem_cons_self a rest))
      (hL a (List.mem_cons_self a rest))]
    have hT2 : ∀ b ∈ rest,
        ∀ r ∈ s.tracking ++ [failed_tracking_row a ns],
        r.article_uuid ≠ b.uuid := by
      intro b hb r hr
      rcases List.mem_append.mp hr with hold | hnew
      · exact hT b (List.mem_cons_of_mem a hb) r hold
      · rw [List.mem_singleton] at hnew
        subst hnew
        intro he
        exact hhead b hb (by simpa [failed_tracking_row] using he)
    have hL2 : ∀ b ∈ rest,
        ∀ r ∈ s.embed_ledger ++ [upsert_failure_row a],
        ¬(r.article_uuid = b.uuid ∧ r.chunk_index = 0) := by
      intro b hb r hr
      rcases List.mem_append.mp hr with hold | hnew
      · exact hL b (List.mem_cons_of_mem a hb) r hold
      · rw [List.mem_singleton] at hnew
        subst hnew
        intro hc
        exact hhead b hb (by simpa [upsert_failure_row] using hc.1)
    rw [ih ⟨s.tracking ++ [failed_tracking_row a ns],
      s.embed_ledger ++ [upsert_failure_row a]⟩ hT2 hL2 htail]
    simp [List.append_assoc]

/-- C3 as amended: for a single batch whose vectors fail to upsert, every
article in the batch is marked failed and none synced — marking remains
batch-atomic — but exactly one FailedEmbeddingChunk-class entry is recorded
per ARTICLE of the failed batch, at chunk_index 0 with total_chunks 1,
regardless of how many chunks the article actually has: the upsert-failure
call site of log_failed_embedding passes neither chunk_index nor
total_chunks. -/
theorem batch_upsert_failure_isolation (cfg : VConfig)
    (embedF : String → List Int) (embedOkAt upsertOkAt : Nat → Bool)
    (embedErrMsg ns : String) (st : VState) (arts : List EArticle)
    (bs1 : Nat)
    (hne : arts ≠ [])
    (hlen : arts.length ≤ bs1 + 1)
    (hEmbed : embedOkAt 0 = true)
    (hUpsert : upsertOkAt 0 = false)
    (hTrack : ∀ a ∈ arts, ∀ r ∈ st.tracking, r.article_uuid ≠ a.uuid)
    (hLedger : ∀ a ∈ arts, ∀ r ∈ st.embed_ledger,
      ¬(r.article_uuid = a.uuid ∧ r.chunk_index = 0))
    (hdist : arts.Pairwise (fun x y => x.uuid ≠ y.uuid))
    (hchunks : collect_chunks arts cfg true ≠ []) :
    (upsert_articles_to_pinecone cfg embedF embedOkAt upsertOkAt embedErrMsg
      true st arts bs1 ns).stats = ⟨arts.length, 0, arts.length, 0, 0⟩ ∧
    (upsert_articles_to_pinecone cfg embedF embedOkAt upsertOkAt embedErrMsg
      true st arts bs1 ns).st.tracking =
      st.tracking ++ arts.map (fun a => failed_tracking_row a ns) ∧
    (upsert_articles_to_pinecone cfg embedF embedOkAt upsertOkAt embedErrMsg
      true st arts bs1 ns).st.embed_ledger =
      st.embed_ledger ++ arts.map upsert_failure_row := by
  have hsf : ∀ a ∈ arts, is_article_synced_to_vector_db st a.uuid ns
      = false := by
    intro a ha
    rw [is_article_synced_to_vector_db, List.any_eq_false]
    intro r hr
    simp [hTrack a ha r hr]
  have hfilter : arts.filter (fun a =>
      !is_article_synced_to_vector_db st a.uuid ns) = arts :=
    List.filter_eq_self.mpr (fun a ha => by simp [hsf a ha])
  have hfilter2 : arts.filter (fun a =>
      is_article_synced_to_vector_db st a.uuid ns) = [] := by
    rw [List.filter_eq_nil_iff]
    intro a ha
    simp [hsf a ha]
  have hie : arts.isEmpty = false := by
    cases arts with
    | nil => exact absurd rfl hne
    | cons x xs => rfl
  have hmain : upsert_articles_to_pinecone cfg embedF embedOkAt upsertOkAt
      embedErrMsg true st arts bs1 ns =
      run_batches cfg embedF embedOkAt upsertOkAt embedErrMsg ns bs1 arts
        arts.length 0 arts st ⟨arts.length, 0, 0, 0, 0⟩ [] [] := by
    simp [upsert_articles_to_pinecone, hie, hfilter, hfilter2]
  rw [hmain]
  obtain ⟨a, rest, rfl⟩ := List.exists_cons_of_ne_nil hne
  have hrest : rest.length ≤ bs1 := by
    simp only [List.length_cons] at hlen
    omega
  have htake : rest.take bs1 = rest := List.take_of_length_le hrest
  have hdrop : rest.drop bs1 = [] := List.drop_eq_nil_of_le hrest
  have htexts : ((collect_chunks (a :: rest) cfg true).map
      (fun q => q.1)).isEmpty = false := by
    cases hc : collect_chunks (a :: rest) cfg true with
    | nil => exact absurd hc hchunks
    | cons x xs => rfl
  have hvec : ((collect_chunks (a :: rest) cfg true).map
      (fun q =>
        (⟨((a :: rest).getD q.2.1 default).uuid ++ "_chunk_" ++
            toString q.2.2.1, embedF q.1,
          ((prepare_article_for_embedding ((a :: rest).getD q.2.1 default)
            cfg).getD q.2.2.1 default).2⟩ : PVector))).isEmpty = false := by
    cases hc : collect_chunks (a :: rest) cfg true with
    | nil => exact absurd hc hchunks
    | cons x xs => rfl
  have hprep : prepare_vectors_batch (a :: rest) cfg embedF (embedOkAt 0)
      embedErrMsg st.embed_ledger true =
      ((collect_chunks (a :: rest) cfg true).map
        (fun q =>
          (⟨((a :: rest).getD q.2.1 default).uuid ++ "_chunk_" ++
              toString q.2.2.1, embedF q.1,
            ((prepare_article_for_embedding ((a :: rest).getD q.2.1 default)
              cfg).getD q.2.2.1 default).2⟩ : PVector)),
        st.embed_ledger,
        (collect_chunks (a :: rest) cfg true).map (fun q => q.1)) := by
    rw [hEmbed]
    simp only [prepare_vectors_batch, htexts, Bool.false_eq_true, if_false,
      if_pos trivial]
  rw [List.length_cons]
  simp only [run_batches, htake, hprep, hvec, hUpsert, Bool.false_eq_true,
    if_false, hdrop]
  rw [fold_mark_failed ns (a :: rest)
    ⟨st.tracking, st.embed_ledger⟩ hTrack hLedger hdist]
  simp only [run_batches]
  simp [List.length_cons]

/-- Witness for the amended C3: one two-chunk article in a batch whose
upsert fails is marked failed and receives exactly one ledger row, at chunk
index 0. -/
theorem batch_upsert_failure_isolation_witness :
    (upsert_articles_to_pinecone ⟨2⟩ (fun _ => [1]) (fun _ => true)
      (fun _ => false) "m" true ⟨[], []⟩
      [⟨"u1", "http://e.com/a", "abcdefghijk lmnopqrstuv wxyzabcdefg", none,
        "", "", "", "en", "", "e.com", none, 3, ""⟩] 9 "ns").st.embed_ledger
      = [] ++ [⟨"u1", "http://e.com/a", "abcdefghijk lmnopqrstuv wxyzabcdefg",
        none, "", "", "", "en", "", "e.com", none, 3,
        ""⟩].map upsert_failure_row :=
  (batch_upsert_failure_isolation ⟨2⟩ (fun _ => [1]) (fun _ => true)
    (fun _ => false) "m" "ns" ⟨[], []⟩
    [⟨"u1", "http://e.com/a", "abcdefghijk lmnopqrstuv wxyzabcdefg", none,
      "", "", "", "en", "", "e.com", none, 3, ""⟩] 9
    (by decide) (by decide) rfl rfl (by simp) (by simp)
    (by simp) (by decide)).2.2

/-- Counterexample for C3: a concrete failed batch holding one article that
chunks into two pieces (three words, budget two).  The claim requires one
FailedEmbeddingChunk entry per chunk — two entries, at chunk indices 0 and
1 — but the code records exactly one entry for the article, at chunk_index 0
with total_chunks 1, because the upsert-failure call site of
log_failed_embedding passes neither chunk_index nor total_chunks. -/
theorem batch_upsert_failure_counterexample :
    (prepare_article_for_embedding ⟨"u1", "http://e.com/a",
      "abcdefghijk lmnopqrstuv wxyzabcdefg", none, "", "", "", "en", "",
      "e.com", none, 3, ""⟩ ⟨2⟩).length = 2 ∧
    (upsert_articles_to_pinecone ⟨2⟩ (fun _ => [1]) (fun _ => true)
      (fun _ => false) "m" true ⟨[], []⟩
      [⟨"u1", "http://e.com/a", "abcdefghijk lmnopqrstuv wxyzabcdefg", none,
        "", "", "", "en", "", "e.com", none, 3, ""⟩] 9 "ns").st.embed_ledger
      = [⟨"u1", "http://e.com/a", "abcdefghijk lmnopqrstuv wxyzabcdefg",
        "e.com", "VectorUpsertError", "Failed to upsert vectors to Pinecone",
        0, 1, 1⟩] := by
  decide

end Crypton
